import Mathlib

/-
Verification of the Difference Machine Blender add-on, a UI layer that
drives an external version-control CLI ("forester").  The definitions
below shallowly embed the add-on's Python string parsing and operator
control flow (src/addons/blender/difference_machine).  CLI subprocess
calls are modelled as oracle parameters: each operator takes the results
the CLI would return and we record which calls it performs.
-/

namespace DFM

/-- Result set returned by Blender operators: FINISHED or CANCELLED. -/
inductive OpResult where
  | FINISHED
  | CANCELLED
deriving DecidableEq, Repr

/-! ### Python string primitives

The add-on manipulates CLI stdout with Python `str` methods.  We model
strings as `String` (lists of characters) and re-implement the exact
`str.strip` / `str.split` / `str.replace` / `in` / `str.startswith`
semantics used by the source. -/

/-- Python whitespace characters recognised by default `str.strip` and
`str.split` (space, tab, newline, carriage return, vertical tab, form feed). -/
def isPySpace (c : Char) : Bool :=
  c = ' ' || c = Char.ofNat 9 || c = Char.ofNat 10 ||
  c = Char.ofNat 13 || c = Char.ofNat 11 || c = Char.ofNat 12

/-- Python `str.strip()` on a character list: drop whitespace at both ends. -/
def pyStripL (l : List Char) : List Char :=
  ((l.dropWhile isPySpace).reverse.dropWhile isPySpace).reverse

/-- Python `str.strip()` on `String`. -/
def pyStrip (s : String) : String := ⟨pyStripL s.data⟩

/-- Helper for Python `str.split()` (no separator): accumulate the current
word (reversed) and cut at every whitespace run. -/
def pySplitWsAux : List Char → List Char → List (List Char)
  | [], acc => if acc.isEmpty then [] else [acc.reverse]
  | c :: cs, acc =>
    if isPySpace c then
      if acc.isEmpty then pySplitWsAux cs []
      else acc.reverse :: pySplitWsAux cs []
    else pySplitWsAux cs (c :: acc)

/-- Python `str.split()` with no arguments: split on whitespace runs,
discarding empty fields. -/
def pySplitWs (l : List Char) : List (List Char) := pySplitWsAux l []

/-- Python `str.split('\n')`: cut exactly at newline characters, keeping
empty fields (so `"".split('\n') == [""]`). -/
def splitOnNL : List Char → List (List Char)
  | [] => [[]]
  | c :: cs =>
    if c = Char.ofNat 10 then [] :: splitOnNL cs
    else
      match splitOnNL cs with
      | [] => [[c]]
      | l :: ls => (c :: l) :: ls

/-- Fuel-driven core of Python `str.replace(pat, rep)`: replace
non-overlapping occurrences left to right.  The fuel is an upper bound on
the number of characters consumed, letting the recursion stay structural. -/
def pyReplaceFuel (pat rep : List Char) : Nat → List Char → List Char
  | _, [] => []
  | 0, l => l
  | fuel + 1, c :: cs =>
    if !pat.isEmpty && pat.isPrefixOf (c :: cs) then
      rep ++ pyReplaceFuel pat rep fuel ((c :: cs).drop pat.length)
    else
      c :: pyReplaceFuel pat rep fuel cs

/-- Python `str.replace(pat, rep)` (for the non-empty patterns the add-on
uses). -/
def pyReplace (pat rep l : List Char) : List Char :=
  pyReplaceFuel pat rep l.length l

/-- Substring test on character lists, as in Python `pat in s`. -/
def containsSubL (pat : List Char) : List Char → Bool
  | [] => pat.isEmpty
  | c :: cs => pat.isPrefixOf (c :: cs) || containsSubL pat cs

/-- Python `pat in s` on `String`. -/
def pyIn (pat s : String) : Bool := containsSubL pat.data s.data

/-- Decimal digits of a positive natural number, with structural fuel. -/
def natDigitsFuel : Nat → Nat → List Char
  | 0, _ => []
  | fuel + 1, n =>
    if n = 0 then []
    else natDigitsFuel fuel (n / 10) ++ [Nat.digitChar (n % 10)]

/-- Python `str(n)` for a natural number. -/
def natToDec (n : Nat) : String :=
  if n = 0 then "0" else ⟨natDigitsFuel (n + 1) n⟩

/-- Python `str(i)` for an `int` (possibly negative). -/
def intToDec (i : Int) : String :=
  if i < 0 then "-" ++ natToDec i.natAbs else natToDec i.natAbs

/-- The apostrophe character (used in CLI error messages such as
"referenced by tag 'v1'"). -/
def quoteC : Char := Char.ofNat 39

/-! ### helpers.normalize_commit_hash -/

/-- The hex alphabet accepted by `normalize_commit_hash` (the Python
literal `'0123456789abcdefABCDEF'`). -/
def hexDigitsPy : List Char := "0123456789abcdefABCDEF".data

/-- The lowercase hex alphabet (characters of a normalised hash). -/
def lowerHexPy : List Char := "0123456789abcdef".data

/-- Python `str.lower()` on the ASCII range.  After the hex validation in
`normalize_commit_hash` only characters of `hexDigitsPy` are lowered, so
the ASCII mapping is the one exercised by the source. -/
def asciiLower (c : Char) : Char :=
  if 'A' ≤ c ∧ c ≤ 'Z' then Char.ofNat (c.toNat + 32) else c

/-- utils/helpers.py `normalize_commit_hash`: strip and remove all
whitespace (`''.join(h.strip().split())`), require non-empty hex,
lowercase, and require exactly 64 characters; otherwise `None`.
A `None` Python argument behaves like the empty string here. -/
def normalize_commit_hash (commit_hash : String) : Option String :=
  if commit_hash = "" then none
  else
    let hash_str := (pySplitWs (pyStripL commit_hash.data)).flatten
    if hash_str.isEmpty then none
    else if !(hash_str.all fun c => hexDigitsPy.contains c) then none
    else
      let normalized := hash_str.map asciiLower
      if normalized.length ≠ 64 then none
      else some ⟨normalized⟩

/-! ### forester_cli.ForesterCLI._parse_status_output -/

/-- Sections of the `status` output whose entries are collected into
lists. -/
inductive StatusSection where
  | modified
  | deleted
  | untracked
deriving DecidableEq, Repr

/-- The dictionary built by `_parse_status_output`. -/
structure StatusData where
  branch : String := "main"
  head : Option String := none
  modified : List String := []
  deleted : List String := []
  untracked : List String := []
  clean : Bool := false
deriving DecidableEq, Repr

/-- Append a file entry to the list selected by `current_section`. -/
def statusAppend (d : StatusData) (sec : StatusSection) (fp : String) : StatusData :=
  match sec with
  | .modified => { d with modified := d.modified ++ [fp] }
  | .deleted => { d with deleted := d.deleted ++ [fp] }
  | .untracked => { d with untracked := d.untracked ++ [fp] }

/-- One iteration of the `for line in lines` loop of
`_parse_status_output`: the line is stripped first, then matched against
the header prefixes; the final branch looks for a two-space indent on the
already-stripped line. -/
def statusStep (st : StatusData × Option StatusSection) (raw : List Char) :
    StatusData × Option StatusSection :=
  let line := pyStripL raw
  if line.isEmpty then st
  else if "On branch ".data.isPrefixOf line then
    ({ st.1 with branch := ⟨pyStripL (pyReplace "On branch ".data [] line)⟩ }, st.2)
  else if "HEAD: ".data.isPrefixOf line then
    ({ st.1 with head := some ⟨pyStripL (pyReplace "HEAD: ".data [] line)⟩ }, st.2)
  else if line = "Nothing to commit, working tree clean".data then
    ({ st.1 with clean := true }, st.2)
  else if line = "No commits yet".data then
    ({ st.1 with head := none }, st.2)
  else if line = "Modified files:".data then (st.1, some .modified)
  else if line = "Deleted files:".data then (st.1, some .deleted)
  else if line = "Untracked files:".data then (st.1, some .untracked)
  else if "  ".data.isPrefixOf line && st.2.isSome then
    match st.2 with
    | some sec =>
      let fp := pyStripL line
      if fp.isEmpty then st else (statusAppend st.1 sec ⟨fp⟩, st.2)
    | none => st
  else st

/-- forester_cli.py `_parse_status_output`: fold the loop body over
`output.split('\n')` starting from the default dictionary. -/
def parse_status_output (output : String) : StatusData :=
  ((splitOnNL output.data).foldl statusStep ({}, none)).1

/-! ### forester_cli.ForesterCLI._parse_branch_list_output -/

/-- One element of the branch list returned by the `branch` wrapper. -/
structure BranchEntry where
  name : String
  is_current : Bool
deriving DecidableEq, Repr

/-- Branch name extracted from a stripped line:
`line.replace("* ", "").replace("  ", "").strip()`. -/
def branchNameOf (line : List Char) : List Char :=
  pyStripL (pyReplace "  ".data [] (pyReplace "* ".data [] line))

/-- One iteration of the `_parse_branch_list_output` loop: strip the
line, skip it when empty, mark it current when it starts with `* `,
extract the name and keep the entry only when the name is non-empty. -/
def branch_entry_of_line (raw : List Char) : Option BranchEntry :=
  let line := pyStripL raw
  if line.isEmpty then none
  else
    let is_current := "* ".data.isPrefixOf line
    let name := branchNameOf line
    if name.isEmpty then none
    else some ⟨⟨name⟩, is_current⟩

/-- forester_cli.py `_parse_branch_list_output`. -/
def parse_branch_list_output (output : String) : List BranchEntry :=
  (splitOnNL output.data).filterMap branch_entry_of_line

/-- A raw line of `branch` stdout that produces a kept entry marked
current: stripped non-empty, `* ` prefix, non-empty extracted name. -/
def branch_line_is_kept_current (raw : List Char) : Bool :=
  let line := pyStripL raw
  !line.isEmpty && "* ".data.isPrefixOf line && !(branchNameOf line).isEmpty

/-! ### forester_cli.ForesterCLI.gc and the garbage-collect operator -/

/-- Argument list built by forester_cli.py `ForesterCLI.gc`:
`["gc"]`, plus `--dry-run` when `dry_run` is true, plus
`--reflog-expire N` when `reflog_expire_days != 90`. -/
def forester_gc_command (dry_run : Bool) (reflog_expire_days : Int) : List String :=
  ["gc"]
    ++ (if dry_run then ["--dry-run"] else [])
    ++ (if reflog_expire_days ≠ 90 then ["--reflog-expire", intToDec reflog_expire_days] else [])

/-- gc_operators.py `DF_OT_garbage_collect.execute` invokes
`cli.gc(repo_path, dry_run=False)`: the operator's own `dry_run`
property is not forwarded (the source comments that the CLI lacks the
flag) and `reflog_expire_days` keeps its default 90. -/
def df_garbage_collect_gc_argv (_operator_dry_run : Bool) : List String :=
  forester_gc_command false 90

/-! ### forester_cli.ForesterCLI.commit (validation prefix) -/

/-- The tuple `(success, commit_hash, error_message)` returned by
`ForesterCLI.commit`, when the CLI does run. -/
structure CommitReturn where
  success : Bool
  hash : Option String
  error : Option String
deriving DecidableEq, Repr

/-- The observable outcome of `ForesterCLI.commit`: the returned tuple
plus whether `_execute_command` was reached. -/
structure CommitTrace where
  success : Bool
  hash : Option String
  error : Option String
  cliCalled : Bool
deriving DecidableEq, Repr

/-- forester_cli.py `ForesterCLI.commit`: validation prefix before the
subprocess.  `repoPathOk` models the truthiness of `repo_path`; the rest
of the method (hash extraction from stdout) runs only after
`_execute_command`, and its outcome is the oracle `cliOutcome`. -/
def forester_commit (repoPathOk : Bool) (message : String)
    (cliOutcome : CommitReturn) : CommitTrace :=
  if !repoPathOk then ⟨false, none, some "Repository path is required", false⟩
  else if message = "" || pyStrip message = "" then
    ⟨false, none, some "Commit message cannot be empty", false⟩
  else ⟨cliOutcome.success, cliOutcome.hash, cliOutcome.error, true⟩

/-! ### branch_operators.DF_OT_switch_branch.execute -/

/-- The uncommitted-changes test of `DF_OT_switch_branch.execute`:
`not is_clean or len(modified) > 0 or len(deleted) > 0 or len(untracked) > 0`. -/
def status_has_changes (d : StatusData) : Bool :=
  !d.clean || d.modified.length > 0 || d.deleted.length > 0 || d.untracked.length > 0

/-- Inputs of `DF_OT_switch_branch.execute`: operator properties, whether
`get_repository_path` succeeds, the oracle result of `cli.status`
(`none` models `success == False`; on success the parsed dictionary is
always truthy), and the oracle outcome of `cli.checkout`. -/
structure SwitchBranchCtx where
  branch_name : String
  repoFound : Bool
  skip_change_check : Bool
  statusResult : Option StatusData
  checkoutOk : Bool
deriving DecidableEq, Repr

/-- Outcome of `DF_OT_switch_branch.execute` plus whether `cli.checkout`
was invoked. -/
structure SwitchBranchTrace where
  result : OpResult
  checkoutCalled : Bool
deriving DecidableEq, Repr

/-- branch_operators.py `DF_OT_switch_branch.execute`: empty name or
missing repository cancel immediately; unless `skip_change_check` is set,
a successful status query showing changes cancels with an informational
report; otherwise `cli.checkout` runs and decides the result. -/
def df_switch_branch_execute (ctx : SwitchBranchCtx) : SwitchBranchTrace :=
  if ctx.branch_name = "" then ⟨.CANCELLED, false⟩
  else if !ctx.repoFound then ⟨.CANCELLED, false⟩
  else
    let blocked :=
      !ctx.skip_change_check &&
        (match ctx.statusResult with
         | some d => status_has_changes d
         | none => false)
    if blocked then ⟨.CANCELLED, false⟩
    else if ctx.checkoutOk then ⟨.FINISHED, true⟩
    else ⟨.CANCELLED, true⟩

/-! ### branch_operators.DF_OT_delete_branch.execute -/

/-- Inputs of `DF_OT_delete_branch.execute`: operator property, repository
lookup, the oracle result of `cli.branch(action="list")` (`none` models a
failed listing) and the oracle outcome of `cli.branch(action="delete")`. -/
structure DeleteBranchCtx where
  branch_name : String
  repoFound : Bool
  listResult : Option (List BranchEntry)
  deleteOk : Bool
deriving DecidableEq, Repr

/-- Outcome of `DF_OT_delete_branch.execute` plus whether the delete CLI
call was reached. -/
structure DeleteBranchTrace where
  result : OpResult
  deleteCalled : Bool
deriving DecidableEq, Repr

/-- branch_operators.py `DF_OT_delete_branch.execute`: empty name or
missing repository cancel; when the branch listing succeeds and marks the
requested name as current, the operator cancels before the `branch -d`
call; otherwise the delete call runs and decides the result. -/
def df_delete_branch_execute (ctx : DeleteBranchCtx) : DeleteBranchTrace :=
  if ctx.branch_name = "" then ⟨.CANCELLED, false⟩
  else if !ctx.repoFound then ⟨.CANCELLED, false⟩
  else
    let isCurrent :=
      match ctx.listResult with
      | some bs => bs.any fun b => b.name = ctx.branch_name && b.is_current
      | none => false
    if isCurrent then ⟨.CANCELLED, false⟩
    else if ctx.deleteOk then ⟨.FINISHED, true⟩
    else ⟨.CANCELLED, true⟩

/-! ### history_operators.DF_OT_delete_commit.execute -/

/-- Attempt to match the tail of `re.search(r"tag '([^']+)'", msg)` at one
position: the characters up to the next apostrophe, required non-empty and
followed by a closing apostrophe. -/
def matchTagAt (l : List Char) : Option (List Char) :=
  let name := l.takeWhile fun c => c ≠ quoteC
  if 0 < name.length ∧ name.length < l.length then some name else none

/-- Leftmost match of the pattern `tag '([^']+)'`: scan for `tag '`
followed by a non-empty run of non-apostrophe characters and a closing
apostrophe, as `re.search` does. -/
def findTagName : List Char → Option (List Char)
  | [] => none
  | c :: cs =>
    if ("tag ".data ++ [quoteC]).isPrefixOf (c :: cs) then
      match matchTagAt ((c :: cs).drop 5) with
      | some name => some name
      | none => findTagName cs
    else findTagName cs

/-- history_operators.py tag-name extraction from a failed
`commit --delete` error message. -/
def find_tag_in_error (msg : String) : Option String :=
  (findTagName msg.data).map fun l => ⟨l⟩

/-- Inputs of `DF_OT_delete_commit.execute`: the operator property, the
repository lookup, and oracle results for the CLI calls it may perform
(`none` models success, `some msg` a failure with message `msg`). -/
structure DeleteCommitCtx where
  commit_hash : String
  repoFound : Bool
  firstDelete : Option String
  tagDelete : Option String
  secondDelete : Option String
deriving DecidableEq, Repr

/-- Outcome of `DF_OT_delete_commit.execute` plus how many times
`cli.delete_commit` and `cli.delete_tag` were invoked. -/
structure DeleteCommitTrace where
  result : OpResult
  deleteCommitCalls : Nat
  deleteTagCalls : Nat
deriving DecidableEq, Repr

/-- history_operators.py `DF_OT_delete_commit.execute`: after hash
normalisation and the repository lookup, try `cli.delete_commit`; on an
error mentioning `referenced by tag` with a parsable tag name, delete the
tag and, only when that succeeds, retry the commit deletion exactly once;
every other failure cancels.  (The preceding `cli.show` call and the
report texts do not affect the result value and are omitted.) -/
def df_delete_commit_execute (ctx : DeleteCommitCtx) : DeleteCommitTrace :=
  if ctx.commit_hash = "" then ⟨.CANCELLED, 0, 0⟩
  else
    match normalize_commit_hash ctx.commit_hash with
    | none => ⟨.CANCELLED, 0, 0⟩
    | some _ =>
      if !ctx.repoFound then ⟨.CANCELLED, 0, 0⟩
      else
        match ctx.firstDelete with
        | none => ⟨.FINISHED, 1, 0⟩
        | some err =>
          if pyIn "referenced by tag" err then
            match find_tag_in_error err with
            | some _ =>
              match ctx.tagDelete with
              | none =>
                match ctx.secondDelete with
                | none => ⟨.FINISHED, 2, 1⟩
                | some _ => ⟨.CANCELLED, 2, 1⟩
              | some _ => ⟨.CANCELLED, 1, 1⟩
            | none => ⟨.CANCELLED, 1, 0⟩
          else ⟨.CANCELLED, 1, 0⟩

/-! ### stash_operators.DF_OT_stash_and_checkout.execute -/

/-- Result of one `cli.stash(action="save")` call: the returned hash (the
wrapper may fail to find one in stdout) or an error message. -/
inductive StashSaveResult where
  | ok (hash : Option String)
  | err (msg : String)
deriving DecidableEq, Repr

/-- Models `random.randint(1000, 9999)`: a uniform draw from the 9000
values 1000..9999. -/
def randSuffix (r : Fin 9000) : Nat := 1000 + r.val

/-- First auto-stash message,
`f"Auto-stash before checkout ({timestamp})"`. -/
def autoStashMessage1 (ts : String) : String :=
  "Auto-stash before checkout (" ++ ts ++ ")"

/-- Retry auto-stash message,
`f"Auto-stash before checkout ({timestamp}-{random_suffix})"`. -/
def autoStashMessage2 (ts : String) (r : Fin 9000) : String :=
  "Auto-stash before checkout (" ++ ts ++ "-" ++ natToDec (randSuffix r) ++ ")"

/-- Inputs of `DF_OT_stash_and_checkout.execute`: the repository lookup,
the two timestamps taken from `datetime.now()`, the random draw, oracle
results for the at most two `stash save` calls, and the outcome of the
checkout dispatch performed after a successful stash. -/
structure StashCheckoutCtx where
  repoFound : Bool
  ts1 : String
  ts2 : String
  rand : Fin 9000
  firstSave : StashSaveResult
  secondSave : StashSaveResult
  afterResult : OpResult
deriving DecidableEq, Repr

/-- Outcome of `DF_OT_stash_and_checkout.execute` plus the number of
`stash save` calls and the messages passed to them, in order. -/
structure StashCheckoutTrace where
  result : OpResult
  saveCalls : Nat
  messages : List String
deriving DecidableEq, Repr

/-- stash_operators.py `DF_OT_stash_and_checkout.execute`: save a stash
with a timestamped message; when that fails with an error containing
`UNIQUE constraint` or `stashes.hash`, retry once with a fresh timestamp
plus a random 1000..9999 suffix; any remaining failure cancels, and a
successful save proceeds to the checkout dispatch. -/
def df_stash_and_checkout_execute (ctx : StashCheckoutCtx) : StashCheckoutTrace :=
  if !ctx.repoFound then ⟨.CANCELLED, 0, []⟩
  else
    let m1 := autoStashMessage1 ctx.ts1
    match ctx.firstSave with
    | .ok _ => ⟨ctx.afterResult, 1, [m1]⟩
    | .err e =>
      if pyIn "UNIQUE constraint" e || pyIn "stashes.hash" e then
        let m2 := autoStashMessage2 ctx.ts2 ctx.rand
        match ctx.secondSave with
        | .ok _ => ⟨ctx.afterResult, 2, [m1, m2]⟩
        | .err _ => ⟨.CANCELLED, 2, [m1, m2]⟩
      else ⟨.CANCELLED, 1, [m1]⟩

/-! ### Supporting lemmas about the Python string primitives -/

theorem flatten_pySplitWsAux (l : List Char) :
    ∀ acc, (pySplitWsAux l acc).flatten =
      acc.reverse ++ l.filter fun c => !isPySpace c := by
  induction l with
  | nil =>
    intro acc
    by_cases h : acc.isEmpty
    · simp [pySplitWsAux, h, List.isEmpty_iff.mp h]
    · simp [pySplitWsAux, h]
  | cons c cs ih =>
    intro acc
    by_cases hsp : isPySpace c
    · by_cases hacc : acc.isEmpty
      · simp [pySplitWsAux, hsp, hacc, ih, List.isEmpty_iff.mp hacc, List.filter_cons]
      · simp [pySplitWsAux, hsp, hacc, ih, List.filter_cons]
    · simp [pySplitWsAux, hsp, ih, List.filter_cons]

theorem filter_dropWhile_pySpace (l : List Char) :
    ((l.dropWhile isPySpace).filter fun c => !isPySpace c) =
      l.filter fun c => !isPySpace c := by
  induction l with
  | nil => rfl
  | cons c cs ih =>
    by_cases h : isPySpace c
    · simp [List.dropWhile_cons, h, ih, List.filter_cons]
    · simp [List.dropWhile_cons, h, List.filter_cons]

theorem filter_pyStripL (l : List Char) :
    ((pyStripL l).filter fun c => !isPySpace c) =
      l.filter fun c => !isPySpace c := by
  unfold pyStripL
  rw [List.filter_reverse, filter_dropWhile_pySpace, List.filter_reverse,
    List.reverse_reverse, filter_dropWhile_pySpace]

/-- The whitespace-removal pipeline `''.join(s.strip().split())` of
`normalize_commit_hash` keeps exactly the non-whitespace characters. -/
theorem hash_str_eq (l : List Char) :
    (pySplitWs (pyStripL l)).flatten = l.filter fun c => !isPySpace c := by
  unfold pySplitWs
  rw [flatten_pySplitWsAux]
  simp [filter_pyStripL]

theorem mem_hexDigitsPy_of_contains {c : Char} (h : hexDigitsPy.contains c = true) :
    c ∈ hexDigitsPy := by
  simpa using h

theorem asciiLower_mem_lowerHex :
    ∀ c ∈ hexDigitsPy, lowerHexPy.contains (asciiLower c) = true := by
  decide

theorem lowerHex_spec :
    ∀ c ∈ lowerHexPy,
      hexDigitsPy.contains c = true ∧ asciiLower c = c ∧ isPySpace c = false := by
  decide

/-- A string of 64 lowercase-hex characters is a fixed point of
`normalize_commit_hash`. -/
theorem normalize_fixed (r : String) (hlen : r.data.length = 64)
    (hlow : ∀ c ∈ r.data, c ∈ lowerHexPy) :
    normalize_commit_hash r = some r := by
  have hne : r ≠ "" := by
    intro h
    subst h
    simp at hlen
  have hfix : (r.data.filter fun c => !isPySpace c) = r.data :=
    List.filter_eq_self.mpr fun c hc => by
      have := (lowerHex_spec _ (hlow c hc)).2.2
      simp [this]
  have hni : r.data.isEmpty = false := by
    cases hd : r.data
    · simp [hd] at hlen
    · simp [hd]
  have hall : (r.data.all fun c => hexDigitsPy.contains c) = true :=
    List.all_eq_true.mpr fun c hc => (lowerHex_spec _ (hlow c hc)).1
  have hmap : r.data.map asciiLower = r.data := by
    rw [List.map_congr_left fun c hc => (lowerHex_spec _ (hlow c hc)).2.1]
    exact List.map_id r.data
  simp only [normalize_commit_hash, hash_str_eq, hfix]
  rw [if_neg hne]
  simp [hni, hall, hmap, hlen]
  intro x hx
  exact mem_hexDigitsPy_of_contains ((lowerHex_spec _ (hlow x hx)).1)

/-- When the non-whitespace characters of the input are 64 hex digits,
`normalize_commit_hash` returns them lowercased. -/
theorem normalize_of_filter (s : String)
    (hlen : (s.data.filter fun c => !isPySpace c).length = 64)
    (hhex : ((s.data.filter fun c => !isPySpace c).all fun c =>
      hexDigitsPy.contains c) = true) :
    normalize_commit_hash s =
      some ⟨(s.data.filter fun c => !isPySpace c).map asciiLower⟩ := by
  have hne : s ≠ "" := by
    intro h
    subst h
    simp at hlen
  have hni : (s.data.filter fun c => !isPySpace c).isEmpty = false := by
    cases hd : s.data.filter fun c => !isPySpace c
    · rw [hd] at hlen
      simp at hlen
    · simp [hd]
  simp only [normalize_commit_hash, hash_str_eq]
  rw [if_neg hne]
  simp [hni, hhex, hlen]
  intro x hx hns
  have hxf : x ∈ s.data.filter fun c => !isPySpace c :=
    List.mem_filter.mpr ⟨hx, by simp [hns]⟩
  exact mem_hexDigitsPy_of_contains (List.all_eq_true.mp hhex x hxf)

/-- Every character printed by `natDigitsFuel` is a decimal digit. -/
theorem natDigitsFuel_digits :
    ∀ fuel n c, c ∈ natDigitsFuel fuel n → c.isDigit = true := by
  intro fuel
  induction fuel with
  | zero =>
    intro n c h
    simp [natDigitsFuel] at h
  | succ f ih =>
    intro n c h
    unfold natDigitsFuel at h
    by_cases hn : n = 0
    · simp [hn] at h
    · rw [if_neg hn] at h
      rcases List.mem_append.mp h with h | h
      · exact ih _ _ h
      · have hc : c = Nat.digitChar (n % 10) := by simpa using h
        subst hc
        have h10 : n % 10 < 10 := Nat.mod_lt _ (by norm_num)
        set m := n % 10 with hm
        interval_cases m <;> decide

theorem natToDec_digits (n : Nat) (c : Char) (h : c ∈ (natToDec n).data) :
    c.isDigit = true := by
  unfold natToDec at h
  by_cases hn : n = 0
  · rw [if_pos hn] at h
    have hc : c = '0' := by simpa using h
    subst hc
    decide
  · rw [if_neg hn] at h
    exact natDigitsFuel_digits _ _ _ (by simpa using h)

/-- `str(i)` never equals a `--`-prefixed CLI flag. -/
theorem intToDec_ne_flag (i : Int) (flag : String) (t : List Char)
    (ht : flag.data = '-' :: '-' :: t) : intToDec i ≠ flag := by
  unfold intToDec
  by_cases hi : i < 0
  · rw [if_pos hi]
    intro h
    have hdata : '-' :: (natToDec i.natAbs).data = flag.data := by
      rw [← h]
      rfl
    rw [ht] at hdata
    have htail : (natToDec i.natAbs).data = '-' :: t := by
      injection hdata
    have hm : '-' ∈ (natToDec i.natAbs).data := by
      rw [htail]
      exact List.mem_cons_self _ _
    exact absurd (natToDec_digits _ _ hm) (by decide)
  · rw [if_neg hi]
    intro h
    have hm : '-' ∈ (natToDec i.natAbs).data := by
      rw [h, ht]
      exact List.mem_cons_self _ _
    exact absurd (natToDec_digits _ _ hm) (by decide)

/-- A raw line is counted by `branch_line_is_kept_current` exactly when
its parsed entry exists and is marked current. -/
theorem branch_line_kept_eq (raw : List Char) :
    branch_line_is_kept_current raw =
      ((branch_entry_of_line raw).map fun b => b.is_current).getD false := by
  unfold branch_entry_of_line branch_line_is_kept_current
  by_cases h1 : (pyStripL raw).isEmpty <;>
    by_cases h2 : (branchNameOf (pyStripL raw)).isEmpty <;>
      simp [h1, h2]

/-- Counting current-marked entries in the parsed branch list equals
counting the raw lines that are kept and marked current. -/
theorem countP_branch_entries (ls : List (List Char)) :
    ((ls.filterMap branch_entry_of_line).countP fun b => b.is_current) =
      ls.countP branch_line_is_kept_current := by
  induction ls with
  | nil => rfl
  | cons raw rest ih =>
    rw [List.filterMap_cons, List.countP_cons, branch_line_kept_eq]
    cases he : branch_entry_of_line raw with
    | none => simp [he, ih]
    | some b =>
      simp [List.countP_cons, ih]

/-! ### Claim theorems -/

/-- C1 (code-bug evidence): on status stdout that follows the documented
contract — a `Modified files:` header followed by a two-space-indented
file entry — `_parse_status_output` returns an empty `modified` list
(and likewise for the other sections), because every line is stripped
before the `startswith("  ")` test, so the file-entry branch can never
fire.  The claim expects `modified = ["foo.txt"]` here. -/
theorem parse_status_output_drops_section_entries :
    parse_status_output "On branch main\nModified files:\n  foo.txt" =
      { branch := "main", head := none, modified := [], deleted := [],
        untracked := [], clean := false } := by
  decide

/-- C2: whenever the parsed status reports uncommitted changes (clean is
false, or a modified, deleted or untracked entry is present) and
`skip_change_check` is false, `DF_OT_switch_branch.execute` returns
CANCELLED without invoking `cli.checkout`. -/
theorem switch_branch_refuses_when_dirty (ctx : SwitchBranchCtx) (d : StatusData)
    (hskip : ctx.skip_change_check = false)
    (hstat : ctx.statusResult = some d)
    (hdirty : d.clean = false ∨ d.modified ≠ [] ∨ d.deleted ≠ [] ∨ d.untracked ≠ []) :
    df_switch_branch_execute ctx = ⟨.CANCELLED, false⟩ := by
  have hch : status_has_changes d = true := by
    unfold status_has_changes
    rcases hdirty with h | h | h | h <;>
      simp [h, List.length_pos]
  by_cases h1 : ctx.branch_name = ""
  · simp [df_switch_branch_execute, h1]
  · by_cases h2 : ctx.repoFound = true
    · simp [df_switch_branch_execute, h1, h2, hstat, hskip, hch]
    · simp [df_switch_branch_execute, h1, h2]

/-- C2 witness. -/
theorem switch_branch_refuses_when_dirty_witness :
    df_switch_branch_execute ⟨"dev", true, false, some {}, true⟩ =
      ⟨.CANCELLED, false⟩ :=
  switch_branch_refuses_when_dirty _ {} rfl rfl (Or.inl rfl)

/-- C3: the garbage-collect operator invokes the CLI with `dry_run=False`
regardless of its own `dry_run` property, while `ForesterCLI.gc` puts
`--dry-run` in the argv exactly when its `dry_run` argument is true and
`--reflog-expire N` exactly when `reflog_expire_days` differs from 90. -/
theorem gc_dry_run_flag_contract (p d : Bool) (days : Int) :
    df_garbage_collect_gc_argv p = forester_gc_command false 90
    ∧ "--dry-run" ∉ df_garbage_collect_gc_argv p
    ∧ ("--dry-run" ∈ forester_gc_command d days ↔ d = true)
    ∧ ("--reflog-expire" ∈ forester_gc_command d days ↔ days ≠ 90) := by
  have hnum1 : intToDec days ≠ "--dry-run" :=
    intToDec_ne_flag days "--dry-run" "dry-run".data rfl
  have hnum2 : intToDec days ≠ "--reflog-expire" :=
    intToDec_ne_flag days "--reflog-expire" "reflog-expire".data rfl
  refine ⟨rfl, by simp [df_garbage_collect_gc_argv, forester_gc_command], ?_, ?_⟩
  · cases d
    · by_cases h90 : days = 90
      · simp [forester_gc_command, h90]
      · simp [forester_gc_command, h90, Ne.symm hnum1]
    · simp [forester_gc_command]
  · by_cases h90 : days = 90
    · cases d <;> simp [forester_gc_command, h90]
    · cases d <;> simp [forester_gc_command, h90]

/-- C3 witness. -/
theorem gc_dry_run_flag_contract_witness :
    df_garbage_collect_gc_argv true = forester_gc_command false 90
    ∧ "--dry-run" ∉ df_garbage_collect_gc_argv true
    ∧ ("--dry-run" ∈ forester_gc_command true 30 ↔ true = true)
    ∧ ("--reflog-expire" ∈ forester_gc_command true 30 ↔ (30 : Int) ≠ 90) :=
  gc_dry_run_flag_contract true true 30

/-- C4: when commit deletion fails with an error mentioning
`referenced by tag '<name>'` and the tag name parses, the delete-commit
operator deletes the tag once; a successful tag deletion is followed by
exactly one retry of the commit deletion, while a failed tag deletion
leaves the commit deletion unretried and the operator cancels. -/
theorem delete_commit_tag_retry_policy (ctx : DeleteCommitCtx) (err : String)
    (hnorm : (normalize_commit_hash ctx.commit_hash).isSome = true)
    (hrepo : ctx.repoFound = true)
    (hfirst : ctx.firstDelete = some err)
    (htag : pyIn "referenced by tag" err = true)
    (hparse : (find_tag_in_error err).isSome = true) :
    (df_delete_commit_execute ctx).deleteTagCalls = 1 ∧
    (if ctx.tagDelete.isSome then
        (df_delete_commit_execute ctx).deleteCommitCalls = 1 ∧
        (df_delete_commit_execute ctx).result = .CANCELLED
      else (df_delete_commit_execute ctx).deleteCommitCalls = 2) := by
  have hne : ctx.commit_hash ≠ "" := by
    intro h
    rw [h] at hnorm
    simp [normalize_commit_hash] at hnorm
  obtain ⟨nh, hnh⟩ := Option.isSome_iff_exists.mp hnorm
  obtain ⟨tg, htg⟩ := Option.isSome_iff_exists.mp hparse
  cases htd : ctx.tagDelete with
  | none =>
    cases hsd : ctx.secondDelete <;>
      simp [df_delete_commit_execute, hne, hnh, hrepo, hfirst, htag, htg, htd, hsd]
  | some e =>
    simp [df_delete_commit_execute, hne, hnh, hrepo, hfirst, htag, htg, htd]

/-- An error message of the shape the CLI emits for tag-referenced
commits, used as a concrete witness input. -/
def tagErrExample : String :=
  "cannot delete commit c - it is referenced by tag " ++ ⟨[quoteC]⟩ ++ "v1" ++ ⟨[quoteC]⟩

/-- Concrete witness context for the delete-commit operator. -/
def dcCtxExample : DeleteCommitCtx :=
  ⟨"aaaaaaaaaaaaaaaaaaaaaaaaaaaaaaaaaaaaaaaaaaaaaaaaaaaaaaaaaaaaaaaa",
    true, some tagErrExample, some "tag deletion failed", none⟩

/-- C4 witness. -/
theorem delete_commit_tag_retry_policy_witness :
    (df_delete_commit_execute dcCtxExample).deleteTagCalls = 1 ∧
    (if dcCtxExample.tagDelete.isSome then
        (df_delete_commit_execute dcCtxExample).deleteCommitCalls = 1 ∧
        (df_delete_commit_execute dcCtxExample).result = .CANCELLED
      else (df_delete_commit_execute dcCtxExample).deleteCommitCalls = 2) :=
  delete_commit_tag_retry_policy dcCtxExample tagErrExample (by decide) rfl rfl
    (by decide) (by decide)

/-- C5: a stash save failing with an error containing `UNIQUE constraint`
or `stashes.hash` is retried exactly once, with a message extended by the
fresh timestamp and a random four-digit (1000..9999) suffix; a failure
containing neither substring is not retried and the operator cancels. -/
theorem stash_and_checkout_collision_retry (ctx : StashCheckoutCtx) (e : String)
    (hrepo : ctx.repoFound = true)
    (hfirst : ctx.firstSave = .err e) :
    ((pyIn "UNIQUE constraint" e || pyIn "stashes.hash" e) = true →
      (df_stash_and_checkout_execute ctx).saveCalls = 2 ∧
      (df_stash_and_checkout_execute ctx).messages =
        [autoStashMessage1 ctx.ts1,
          "Auto-stash before checkout (" ++ ctx.ts2 ++ "-" ++
            natToDec (randSuffix ctx.rand) ++ ")"] ∧
      1000 ≤ randSuffix ctx.rand ∧ randSuffix ctx.rand ≤ 9999)
    ∧ ((pyIn "UNIQUE constraint" e || pyIn "stashes.hash" e) = false →
      (df_stash_and_checkout_execute ctx).saveCalls = 1 ∧
      (df_stash_and_checkout_execute ctx).result = .CANCELLED) := by
  constructor
  · intro hcoll
    have hb : 1000 ≤ randSuffix ctx.rand ∧ randSuffix ctx.rand ≤ 9999 := by
      have := ctx.rand.isLt
      unfold randSuffix
      omega
    cases hsec : ctx.secondSave <;>
      simpa [df_stash_and_checkout_execute, hrepo, hfirst, hcoll, hsec,
        autoStashMessage2] using hb
  · intro hncoll
    simp [df_stash_and_checkout_execute, hrepo, hfirst, hncoll]

/-- Concrete collision-retry witness context. -/
def scCtxCollision : StashCheckoutCtx :=
  ⟨true, "t1", "t2", ⟨42, by omega⟩,
    .err "UNIQUE constraint failed: stashes.hash", .ok (some "h"), .FINISHED⟩

/-- Concrete non-collision witness context. -/
def scCtxOther : StashCheckoutCtx :=
  ⟨true, "t1", "t2", ⟨0, by omega⟩, .err "disk full", .ok none, .FINISHED⟩

/-- C5 witness. -/
theorem stash_and_checkout_collision_retry_witness :
    ((df_stash_and_checkout_execute scCtxCollision).saveCalls = 2 ∧
      (df_stash_and_checkout_execute scCtxCollision).messages =
        [autoStashMessage1 scCtxCollision.ts1,
          "Auto-stash before checkout (" ++ scCtxCollision.ts2 ++ "-" ++
            natToDec (randSuffix scCtxCollision.rand) ++ ")"] ∧
      1000 ≤ randSuffix scCtxCollision.rand ∧ randSuffix scCtxCollision.rand ≤ 9999)
    ∧ ((df_stash_and_checkout_execute scCtxOther).saveCalls = 1 ∧
      (df_stash_and_checkout_execute scCtxOther).result = .CANCELLED) :=
  ⟨(stash_and_checkout_collision_retry scCtxCollision
      "UNIQUE constraint failed: stashes.hash" rfl rfl).1 (by decide),
    (stash_and_checkout_collision_retry scCtxOther "disk full" rfl rfl).2 (by decide)⟩

/-- C6: on `branch` stdout with exactly one line marked with the `* `
prefix (and a non-empty branch name on it, as the CLI contract
guarantees), `_parse_branch_list_output` returns exactly one entry with
`is_current = true`. -/
theorem parse_branch_list_single_current (output : String)
    (h : (splitOnNL output.data).countP branch_line_is_kept_current = 1) :
    ((parse_branch_list_output output).countP fun b => b.is_current) = 1 := by
  unfold parse_branch_list_output
  rw [countP_branch_entries]
  exact h

/-- C6 witness. -/
theorem parse_branch_list_single_current_witness :
    ((parse_branch_list_output "* main\n  dev").countP fun b => b.is_current) = 1 :=
  parse_branch_list_single_current "* main\n  dev" (by decide)

/-- C7: an empty or all-whitespace commit message makes
`ForesterCLI.commit` return failure with the error
`Commit message cannot be empty` without reaching `_execute_command`. -/
theorem commit_rejects_blank_message (repoPathOk : Bool) (message : String)
    (cliOutcome : CommitReturn) (hrepo : repoPathOk = true)
    (hblank : pyStrip message = "") :
    forester_commit repoPathOk message cliOutcome =
      ⟨false, none, some "Commit message cannot be empty", false⟩ := by
  subst hrepo
  simp [forester_commit, hblank]

/-- C7 witness. -/
theorem commit_rejects_blank_message_witness :
    forester_commit true "   " ⟨true, some "deadbeef", none⟩ =
      ⟨false, none, some "Commit message cannot be empty", false⟩ :=
  commit_rejects_blank_message true "   " ⟨true, some "deadbeef", none⟩ rfl (by decide)

/-- C8: whenever the branch listing succeeds and marks the requested name
as current, `DF_OT_delete_branch.execute` returns CANCELLED without
reaching the `branch -d` CLI call. -/
theorem delete_branch_refuses_current_branch (ctx : DeleteBranchCtx)
    (bs : List BranchEntry) (hlist : ctx.listResult = some bs)
    (hcur : ∃ b ∈ bs, b.name = ctx.branch_name ∧ b.is_current = true) :
    df_delete_branch_execute ctx = ⟨.CANCELLED, false⟩ := by
  have hany : (bs.any fun b => b.name = ctx.branch_name && b.is_current) = true := by
    obtain ⟨b, hb, hn, hc⟩ := hcur
    exact List.any_eq_true.mpr ⟨b, hb, by simp [hn, hc]⟩
  by_cases h1 : ctx.branch_name = ""
  · simp [df_delete_branch_execute, h1]
  · by_cases h2 : ctx.repoFound = true
    · simp [df_delete_branch_execute, h1, h2, hlist, hany]
    · simp [df_delete_branch_execute, h1, h2]

/-- C8 witness. -/
theorem delete_branch_refuses_current_branch_witness :
    df_delete_branch_execute ⟨"main", true, some [⟨"main", true⟩], true⟩ =
      ⟨.CANCELLED, false⟩ :=
  delete_branch_refuses_current_branch _ [⟨"main", true⟩] rfl
    ⟨⟨"main", true⟩, by simp, rfl, rfl⟩

/-- C9: `normalize_commit_hash` returns `None` or a string of exactly 64
lowercase hex characters; an input whose non-whitespace characters form
64 hex digits is returned with those digits lowercased; and every
non-`None` result is a fixed point. -/
theorem normalize_commit_hash_contract :
    (∀ s r : String, normalize_commit_hash s = some r →
      r.length = 64 ∧ (r.data.all fun c => lowerHexPy.contains c) = true ∧
      normalize_commit_hash r = some r)
    ∧ ∀ s : String,
        (s.data.filter fun c => !isPySpace c).length = 64 →
        ((s.data.filter fun c => !isPySpace c).all fun c =>
          hexDigitsPy.contains c) = true →
        normalize_commit_hash s =
          some ⟨(s.data.filter fun c => !isPySpace c).map asciiLower⟩ := by
  constructor
  · intro s r hn
    simp only [normalize_commit_hash, hash_str_eq] at hn
    split_ifs at hn with h1 h2 h3 h4
    all_goals try simp at hn
    subst hn
    have h3' : ((s.data.filter fun c => !isPySpace c).all fun c =>
        hexDigitsPy.contains c) = true := by
      cases hX : (s.data.filter fun c => !isPySpace c).all fun c => hexDigitsPy.contains c
      · exact absurd (by rw [hX]; rfl) h3
      · rfl
    have h4' : ((s.data.filter fun c => !isPySpace c).map asciiLower).length = 64 := by
      simpa using h4
    have hlow : ∀ c ∈ (s.data.filter fun c => !isPySpace c).map asciiLower,
        c ∈ lowerHexPy := by
      intro c hc
      rw [List.mem_map] at hc
      obtain ⟨x, hx, rfl⟩ := hc
      have hx' := List.all_eq_true.mp h3' x hx
      have := asciiLower_mem_lowerHex _ (mem_hexDigitsPy_of_contains hx')
      simpa using this
    refine ⟨h4', ?_, ?_⟩
    · exact List.all_eq_true.mpr fun c hc => by simpa using hlow c hc
    · exact normalize_fixed _ h4' hlow
  · exact normalize_of_filter

/-- C9 witness. -/
theorem normalize_commit_hash_contract_witness :
    normalize_commit_hash
        "0123456789ABCDEF0123456789abcdef0123456789ABCDEF0123456789abcdef" =
      some ⟨("0123456789ABCDEF0123456789abcdef0123456789ABCDEF0123456789abcdef".data.filter
        fun c => !isPySpace c).map asciiLower⟩
    ∧ normalize_commit_hash
        "0123456789abcdef0123456789abcdef0123456789abcdef0123456789abcdef" =
      some "0123456789abcdef0123456789abcdef0123456789abcdef0123456789abcdef" :=
  ⟨normalize_commit_hash_contract.2 _ (by decide) (by decide),
    (normalize_commit_hash_contract.1
      "0123456789ABCDEF0123456789abcdef0123456789ABCDEF0123456789abcdef"
      "0123456789abcdef0123456789abcdef0123456789abcdef0123456789abcdef"
      (by decide)).2.2⟩

/-- C10: when the status query fails and `skip_change_check` is false,
`DF_OT_switch_branch.execute` skips the uncommitted-changes gate and
invokes `cli.checkout` anyway. -/
theorem switch_branch_proceeds_when_status_fails (ctx : SwitchBranchCtx)
    (hname : ctx.branch_name ≠ "") (hrepo : ctx.repoFound = true)
    (hskip : ctx.skip_change_check = false) (hstat : ctx.statusResult = none) :
    (df_switch_branch_execute ctx).checkoutCalled = true := by
  cases hco : ctx.checkoutOk <;>
    simp [df_switch_branch_execute, hname, hrepo, hstat, hskip, hco]

/-- C10 witness. -/
theorem switch_branch_proceeds_when_status_fails_witness :
    (df_switch_branch_execute ⟨"dev", true, false, none, true⟩).checkoutCalled = true :=
  switch_branch_proceeds_when_status_fails ⟨"dev", true, false, none, true⟩
    (by decide) rfl rfl rfl

end DFM
